import Mathlib

/-! # gmx.core boundary objects: `PyStatus` and `PyGmxModule`

A shallow embedding of `src/gmx/core/core.h` (namespace `gmxpy`).

* `PyStatus` is a class with one private data member, `bool success_`.  It is
  embedded as a structure with that one field; each constructor of the class
  is a function returning the structure, and `success()` is the projection.
* Objects have identity in C++ ("the copy holds its own flag").  To speak about
  a copy and its original as two objects, a small object store is used: a list
  of slots, one per constructed object, each holding a live `PyStatus` or
  nothing once the object has been destroyed.
* `PyGmxModule` is a polymorphic base class without data members whose only
  virtual member besides the destructor is the non-const `std::string info()`.
  A non-const member function is embedded as a function from the object to the
  returned value and the object afterwards; an override of the virtual function
  may in addition read and write state outside the object, which is threaded
  through the call in the same way.
-/

namespace gmxpy

/-! ## The engine-native status type -/

/-- Modelled from the spec: the engine-native result type `gmxapi::Status`, declared in
`gmxapi/gmxapi.h`, which is included by `core.h` but is not part of the sources at hand.
The spec's glossary says of it only that it is "assumed to expose a success predicate,
possibly more", so it is any type `σ` with a boolean `success()`.  The constructor of
`PyStatus` takes its argument by value; the value it reads is identified with the value
the caller passed. -/
class NativeStatus (σ : Type) where
  /-- The call `status.success()` on a native status value. -/
  success : σ → Bool

/-- A concrete native status used in examples: the flag together with a diagnostic text
that `PyStatus` has no place for. -/
structure DetailedStatus where
  ok : Bool
  message : String
  deriving DecidableEq, Repr

instance : NativeStatus DetailedStatus where
  success s := s.ok

/-! ## `class PyStatus` (core.h, lines 108-122) -/

/-- The class `PyStatus`: its only data member is `bool success_`. -/
structure PyStatus where
  success_ : Bool
  deriving DecidableEq, Repr

namespace PyStatus

/-- Default constructor, `PyStatus() : success_(false) {}` (line 111). -/
def ctorDefault : PyStatus :=
  { success_ := false }

/-- Copy constructor, `PyStatus(const PyStatus &status) : success_{status.success_} {}`
(line 112). -/
def ctorCopy (status : PyStatus) : PyStatus :=
  { success_ := status.success_ }

/-- Constructor from a flag, `explicit PyStatus(const bool &status) : success_(status) {}`
(line 115). -/
def ctorBool (status : Bool) : PyStatus :=
  { success_ := status }

/-- Constructor from a native status,
`explicit PyStatus(const gmxapi::Status status) : success_(status.success()) {}` (line 116). -/
def ctorNative {σ : Type} [NativeStatus σ] (status : σ) : PyStatus :=
  { success_ := NativeStatus.success status }

/-- Accessor `bool success() const { return success_; }` (line 118). -/
def success (self : PyStatus) : Bool :=
  self.success_

/-- The implicitly declared copy assignment operator `PyStatus &operator=(const PyStatus &)`.
The class declares a copy constructor and a destructor but no move operation and no
assignment operator, and `success_` is a non-const `bool`, so the compiler supplies the
memberwise assignment: the target's `success_` becomes the source's. -/
def assign (_self : PyStatus) (other : PyStatus) : PyStatus :=
  { success_ := other.success_ }

end PyStatus

/-- A call of one of the four constructors of `PyStatus`, with its argument. -/
inductive CtorCall (σ : Type) where
  | dflt : CtorCall σ
  | copy (status : PyStatus) : CtorCall σ
  | ofBool (status : Bool) : CtorCall σ
  | ofNative (status : σ) : CtorCall σ

/-- The object a constructor call produces. -/
def CtorCall.run {σ : Type} [NativeStatus σ] : CtorCall σ → PyStatus
  | .dflt => PyStatus.ctorDefault
  | .copy status => PyStatus.ctorCopy status
  | .ofBool status => PyStatus.ctorBool status
  | .ofNative status => PyStatus.ctorNative status

/-! ## An object store for `PyStatus` objects -/

/-- The objects constructed so far, in order of construction.  Object `i` is slot `i`;
the slot holds `none` once the object has been destroyed. -/
abbrev Store := List (Option PyStatus)

/-- The live object with identity `i`, if there is one. -/
def Store.live (st : Store) (i : Nat) : Option PyStatus :=
  (st.get? i).join

/-- The result of `obj.success()` for the object with identity `i`; `none` when no such
object is alive (the call would be outside the object's lifetime). -/
def Store.successOf (st : Store) (i : Nat) : Option Bool :=
  (st.live i).map PyStatus.success

/-- The operations a client of the class can perform on `PyStatus` objects. -/
inductive Stmt (σ : Type) where
  /-- Statement `PyStatus a;` -/
  | newDefault : Stmt σ
  /-- Statement `PyStatus a(src);` with `src` a `PyStatus` object. -/
  | newCopy (src : Nat) : Stmt σ
  /-- Statement `PyStatus a(b);` with `b` a `bool`. -/
  | newBool (b : Bool) : Stmt σ
  /-- Statement `PyStatus a(s);` with `s` a `gmxapi::Status`. -/
  | newNative (s : σ) : Stmt σ
  /-- Statement `obj.success();` -/
  | callSuccess (obj : Nat) : Stmt σ
  /-- Statement `dst = src;` -/
  | assignFrom (dst src : Nat) : Stmt σ
  /-- The end of the lifetime of `obj` (`~PyStatus()`). -/
  | destroy (obj : Nat) : Stmt σ

/-- The object whose stored value or lifetime a statement may touch, if any. -/
def Stmt.target {σ : Type} : Stmt σ → Option Nat
  | .assignFrom dst _ => some dst
  | .destroy obj => some obj
  | _ => none

/-- One statement.  A new object is appended to the store, so its identity is the length
of the store before the statement.  The result is `none` when the statement uses an
object that is not alive, which C++ leaves undefined. -/
def exec {σ : Type} [NativeStatus σ] (st : Store) : Stmt σ → Option Store
  | .newDefault => some (st ++ [some PyStatus.ctorDefault])
  | .newCopy src =>
    match st.live src with
    | some status => some (st ++ [some (PyStatus.ctorCopy status)])
    | none => none
  | .newBool b => some (st ++ [some (PyStatus.ctorBool b)])
  | .newNative s => some (st ++ [some (PyStatus.ctorNative s)])
  | .callSuccess obj =>
    match st.live obj with
    | some _ => some st
    | none => none
  | .assignFrom dst src =>
    match st.live dst, st.live src with
    | some self, some other => some (st.set dst (some (self.assign other)))
    | _, _ => none
  | .destroy obj =>
    match st.live obj with
    | some _ => some (st.set obj none)
    | none => none

/-- A sequence of statements, stopping at the first one that is undefined. -/
def execAll {σ : Type} [NativeStatus σ] (st : Store) : List (Stmt σ) → Option Store
  | [] => some st
  | s :: rest =>
    match exec st s with
    | some st' => execAll st' rest
    | none => none

/-! ## `class PyGmxModule` (core.h, lines 81-101) -/

/-- The class `PyGmxModule`: it declares no data member. -/
structure PyGmxModule where
  deriving DecidableEq, Repr

namespace PyGmxModule

/-- Defaulted `PyGmxModule() = default;` (line 84). -/
def ctorDefault : PyGmxModule :=
  {}

/-- Defaulted `PyGmxModule(const PyGmxModule &) = default;` (line 85): a memberwise copy of
a class without members. -/
def ctorCopy (_other : PyGmxModule) : PyGmxModule :=
  {}

/-- Defaulted `PyGmxModule(PyGmxModule&&) noexcept = default;` (line 86). -/
def ctorMove (_other : PyGmxModule) : PyGmxModule :=
  {}

/-- Defaulted `PyGmxModule &operator=(const PyGmxModule &) = default;` (line 88): it assigns
member by member, there is no member, and it returns the target. -/
def assignCopy (self : PyGmxModule) (_other : PyGmxModule) : PyGmxModule :=
  self

/-- Defaulted `PyGmxModule& operator=(PyGmxModule&&) noexcept = default;` (line 89). -/
def assignMove (self : PyGmxModule) (_other : PyGmxModule) : PyGmxModule :=
  self

/-- The base implementation `virtual std::string info() { return ""; }` (line 100).  The
member function is not `const`, so the object afterwards is part of the result. -/
def info (self : PyGmxModule) : String × PyGmxModule :=
  ("", self)

end PyGmxModule

/-- The ways in which an object whose class is `PyGmxModule` itself comes about from the
special members the class declares. -/
inductive BaseObject where
  | defaultConstructed : BaseObject
  | copyConstructed (source : BaseObject) : BaseObject
  | moveConstructed (source : BaseObject) : BaseObject
  | copyAssigned (target source : BaseObject) : BaseObject
  | moveAssigned (target source : BaseObject) : BaseObject

/-- The object a construction history yields. -/
def BaseObject.value : BaseObject → PyGmxModule
  | .defaultConstructed => PyGmxModule.ctorDefault
  | .copyConstructed source => PyGmxModule.ctorCopy source.value
  | .moveConstructed source => PyGmxModule.ctorMove source.value
  | .copyAssigned target source => PyGmxModule.assignCopy target.value source.value
  | .moveAssigned target source => PyGmxModule.assignMove target.value source.value

/-- An object of a class derived from `PyGmxModule`: the base subobject and the data members
the subclass adds, held by value. -/
structure Derived (α : Type) where
  base : PyGmxModule
  added : α

/-- The implicit copy constructor of a subclass: the base subobject goes through the base
class's copy constructor and every added member is copied by value.  The result is the
source after the construction (it is taken by reference to const) and the new object. -/
def Derived.copyConstruct {α : Type} (m : Derived α) : Derived α × Derived α :=
  (m, { base := PyGmxModule.ctorCopy m.base, added := m.added })

/-- A class below `PyGmxModule` whose `info()` works on the object alone: the type of the
members it adds and its implementation of the virtual `std::string info()`, which reads
and writes nothing but the object's own members.  The signature in the base class is not
`const`, so the implementation receives the object and may leave it changed.  The classes
of the hierarchy without this restriction are `VirtualClass`. -/
structure ModuleClass where
  Added : Type
  info : Derived Added → String × Derived Added

/-- A subclass whose `info()` is a function of added state held by value and leaves the
object as it is:
`struct Named : PyGmxModule { std::string name_; std::string info() override { return name_; } };` -/
def ModuleClass.named : ModuleClass where
  Added := String
  info m := (m.added, m)

/-- A class in the hierarchy below `PyGmxModule` as the declaration
`virtual std::string info()` (line 100) leaves it open: the type of the members the class
adds and, when the class or one of its bases below `PyGmxModule` overrides `info()`, the
final overrider.  An override is unconstrained: besides the object it may read and write
state outside it (globals, function-local statics), of type `ω`. -/
structure VirtualClass (ω : Type) where
  Added : Type
  infoOverride : Option (ω → Derived Added → String × ω × Derived Added)

/-- The virtual call `m.info()` with outside state `w`: the final overrider runs when there
is one, otherwise `PyGmxModule::info` runs on the base subobject.  The result is the
returned string, the outside state and the object after the call. -/
def VirtualClass.info {ω : Type} (C : VirtualClass ω) (w : ω) (m : Derived C.Added) :
    String × ω × Derived C.Added :=
  match C.infoOverride with
  | some overrider => overrider w m
  | none => ((PyGmxModule.info m.base).1, w, { m with base := (PyGmxModule.info m.base).2 })

/-- A class whose `info()` works on the object alone, as a class of the hierarchy. -/
def ModuleClass.toVirtual (ω : Type) (C : ModuleClass) : VirtualClass ω where
  Added := C.Added
  infoOverride := some (fun w m => ((C.info m).1, w, (C.info m).2))

theorem Store.live_lt_length {st : Store} {i : Nat} {v : PyStatus}
    (h : st.live i = some v) : i < st.length := by
  by_contra hc
  simp [Store.live, List.getElem?_eq_none (not_lt.mp hc)] at h

theorem Store.live_append_old (st : Store) (o : Option PyStatus) {i : Nat}
    (h : i < st.length) : Store.live (st ++ [o]) i = st.live i := by
  simp [Store.live, List.getElem?_append_left h]

theorem Store.live_append_new (st : Store) (o : Option PyStatus) :
    Store.live (st ++ [o]) st.length = o := by
  simp [Store.live]

theorem Store.live_set_other (st : Store) (o : Option PyStatus) {i j : Nat}
    (h : i ≠ j) : Store.live (st.set j o) i = st.live i := by
  simp [Store.live, List.getElem?_set_ne (Ne.symm h)]

theorem Store.live_set_same (st : Store) (o : Option PyStatus) {j : Nat}
    (h : j < st.length) : Store.live (st.set j o) j = o := by
  simp [Store.live, h]

/-- A statement never removes a slot: identities stay valid. -/
theorem exec_length_le {σ : Type} [NativeStatus σ] {st st' : Store} {s : Stmt σ}
    (h : exec st s = some st') : st.length ≤ st'.length := by
  cases s with
  | newDefault => simp [exec] at h; subst h; simp
  | newCopy src =>
    simp only [exec] at h
    split at h
    · simp at h; subst h; simp
    · simp at h
  | newBool b => simp [exec] at h; subst h; simp
  | newNative n => simp [exec] at h; subst h; simp
  | callSuccess obj =>
    simp only [exec] at h
    split at h
    · simp at h; subst h; simp
    · simp at h
  | assignFrom dst src =>
    simp only [exec] at h
    split at h
    · simp at h; subst h; simp
    · simp at h
  | destroy obj =>
    simp only [exec] at h
    split at h
    · simp at h; subst h; simp
    · simp at h

/-- A statement leaves every existing object alone except the one it assigns to or
destroys. -/
theorem exec_live_other {σ : Type} [NativeStatus σ] {st st' : Store} {s : Stmt σ} {y : Nat}
    (h : exec st s = some st') (hy : y < st.length) (ht : s.target ≠ some y) :
    st'.live y = st.live y := by
  cases s with
  | newDefault => simp [exec] at h; subst h; exact Store.live_append_old st _ hy
  | newCopy src =>
    simp only [exec] at h
    split at h
    · simp at h; subst h; exact Store.live_append_old st _ hy
    · simp at h
  | newBool b => simp [exec] at h; subst h; exact Store.live_append_old st _ hy
  | newNative n => simp [exec] at h; subst h; exact Store.live_append_old st _ hy
  | callSuccess obj =>
    simp only [exec] at h
    split at h
    · simp at h; subst h; rfl
    · simp at h
  | assignFrom dst src =>
    have hne : y ≠ dst := fun e => ht (by simp [Stmt.target, e])
    simp only [exec] at h
    split at h
    · simp at h; subst h; exact Store.live_set_other st _ hne
    · simp at h
  | destroy obj =>
    have hne : y ≠ obj := fun e => ht (by simp [Stmt.target, e])
    simp only [exec] at h
    split at h
    · simp at h; subst h; exact Store.live_set_other st _ hne
    · simp at h

/-- A program that neither assigns to nor destroys object `y` leaves it as it is. -/
theorem execAll_live_other {σ : Type} [NativeStatus σ] (prog : List (Stmt σ)) :
    ∀ {st st' : Store} {y : Nat}, execAll st prog = some st' → y < st.length →
      (∀ s ∈ prog, s.target ≠ some y) → st'.live y = st.live y := by
  induction prog with
  | nil =>
    intro st st' y h _ _
    simp [execAll] at h
    subst h; rfl
  | cons s rest ih =>
    intro st st' y h hy ht
    simp only [execAll] at h
    split at h
    · rename_i mid hmid
      have h1 := exec_live_other hmid hy (ht s (List.mem_cons_self s rest))
      have h2 := ih h (lt_of_lt_of_le hy (exec_length_le hmid))
        (fun t htm => ht t (List.mem_cons_of_mem s htm))
      rw [h2, h1]
    · simp at h

/-! ## `PyStatus`: construction and `success()` -/

/-- C1: for every boolean `b`, the object constructed by `PyStatus(b)` answers `success()`
with exactly `b`. -/
theorem PyStatus.success_ctorBool (b : Bool) : (PyStatus.ctorBool b).success = b :=
  rfl

/-- C2: a default-constructed `PyStatus` reports failure, `PyStatus().success()` is
`false`; as a statement in any store, `PyStatus a;` yields an object whose `success()` is
`false`. -/
theorem PyStatus.success_ctorDefault {σ : Type} [NativeStatus σ] :
    PyStatus.ctorDefault.success = false ∧
    ∀ st : Store, ∃ st' : Store,
      exec st (Stmt.newDefault : Stmt σ) = some st' ∧
      st'.successOf st.length = some false := by
  refine ⟨rfl, fun st => ⟨st ++ [some PyStatus.ctorDefault], rfl, ?_⟩⟩
  simp [Store.successOf, Store.live_append_new, PyStatus.success, PyStatus.ctorDefault]

/-- C3: for every native status value `s`, of any type with a `success()` predicate,
`PyStatus(s).success()` equals `s.success()`. -/
theorem PyStatus.success_ctorNative {σ : Type} [NativeStatus σ] (s : σ) :
    (PyStatus.ctorNative s).success = NativeStatus.success s :=
  rfl

/-- C4: copy construction `PyStatus y(x)` from a live object `x` is defined, the new object
`y` has `y.success() == x.success()`, every object that existed before (so `x` too) is as
it was, and `y` holds its own flag: after any later program that does not itself assign to
`y` or destroy it, whatever it does to `x`, `y.success()` is still the value copied; in
particular after `x` is destroyed. -/
theorem PyStatus.copy_holds_own_flag {σ : Type} [NativeStatus σ]
    (st : Store) (x : Nat) (v : PyStatus) (hx : st.live x = some v) :
    ∃ st' : Store, exec st (Stmt.newCopy x : Stmt σ) = some st' ∧
      st'.successOf st.length = some v.success ∧
      st'.successOf x = some v.success ∧
      (∀ i, i < st.length → st'.live i = st.live i) ∧
      (∀ (later : List (Stmt σ)) (st'' : Store),
        (∀ s ∈ later, s.target ≠ some st.length) → execAll st' later = some st'' →
        st''.successOf st.length = some v.success) ∧
      (∃ st'' : Store, exec st' (Stmt.destroy x : Stmt σ) = some st'' ∧
        st''.successOf x = none ∧ st''.successOf st.length = some v.success) := by
  have hlt : x < st.length := Store.live_lt_length hx
  have hnew : Store.live (st ++ [some (PyStatus.ctorCopy v)]) st.length
      = some (PyStatus.ctorCopy v) := Store.live_append_new st _
  have hold : Store.live (st ++ [some (PyStatus.ctorCopy v)]) x = some v := by
    rw [Store.live_append_old st _ hlt, hx]
  refine ⟨st ++ [some (PyStatus.ctorCopy v)], by simp [exec, hx], ?_, ?_, ?_, ?_, ?_⟩
  · rw [Store.successOf, hnew]; rfl
  · rw [Store.successOf, hold]; rfl
  · intro i hi
    exact Store.live_append_old st _ hi
  · intro later st'' hno hrun
    have hkeep := execAll_live_other later hrun (y := st.length) (by simp) hno
    rw [Store.successOf, hkeep, hnew]; rfl
  · refine ⟨(st ++ [some (PyStatus.ctorCopy v)]).set x none, by simp [exec, hold], ?_, ?_⟩
    · have : x < (st ++ [some (PyStatus.ctorCopy v)]).length := by simp; omega
      simp [Store.successOf, Store.live_set_same _ _ this]
    · have hne : st.length ≠ x := by omega
      rw [Store.successOf, Store.live_set_other _ _ hne, hnew]; rfl

/-- Witness for C4 in the store holding one object, `PyStatus x(true)`: the copy is object
1, it reads `true`, and it still does after `x` has been assigned `false` and destroyed. -/
theorem PyStatus.copy_holds_own_flag_witness :
    Store.live [some (PyStatus.ctorBool true)] 0 = some (PyStatus.ctorBool true) ∧
    (∃ st' : Store,
      exec [some (PyStatus.ctorBool true)] (Stmt.newCopy 0 : Stmt DetailedStatus) = some st' ∧
      st'.successOf 1 = some true ∧
      st'.successOf 0 = some true ∧
      (∀ i, i < 1 → st'.live i = Store.live [some (PyStatus.ctorBool true)] i) ∧
      (∀ (later : List (Stmt DetailedStatus)) (st'' : Store),
        (∀ s ∈ later, s.target ≠ some 1) → execAll st' later = some st'' →
        st''.successOf 1 = some true) ∧
      (∃ st'' : Store, exec st' (Stmt.destroy 0 : Stmt DetailedStatus) = some st'' ∧
        st''.successOf 0 = none ∧ st''.successOf 1 = some true)) ∧
    (execAll [some (PyStatus.ctorBool true)]
      [Stmt.newCopy 0, Stmt.newBool false, Stmt.assignFrom 0 2,
        (Stmt.destroy 0 : Stmt DetailedStatus)]
      = some [none, some (PyStatus.ctorBool true), some (PyStatus.ctorBool false)]) :=
  ⟨rfl, @PyStatus.copy_holds_own_flag DetailedStatus _ [some (PyStatus.ctorBool true)] 0
    (PyStatus.ctorBool true) rfl, by decide⟩

/-! ## `PyStatus`: what can change the flag -/

/-- C6, refuted as stated: with `PyStatus a(true); PyStatus b(false);` the statement
`a = b;` is defined and `a.success()` goes from `true` to `false`. -/
theorem PyStatus.assignment_changes_success :
    Store.successOf [some (PyStatus.ctorBool true), some (PyStatus.ctorBool false)] 0
      = some true ∧
    exec [some (PyStatus.ctorBool true), some (PyStatus.ctorBool false)]
      (Stmt.assignFrom 0 1 : Stmt DetailedStatus)
      = some [some (PyStatus.ctorBool false), some (PyStatus.ctorBool false)] ∧
    Store.successOf [some (PyStatus.ctorBool false), some (PyStatus.ctorBool false)] 0
      = some false := by
  decide

/-- C6, amended: the value `x.success()` returns can be changed only by assigning to `x`.
Every statement that is defined and is neither an assignment to `x` nor the destruction of
`x` (constructing other objects, copies of `x` among them, calling `success()`, assigning
to or destroying another object) leaves `x.success()` as it was; and the assignment
`x = src` from any live object is defined and makes `x.success()` equal `src.success()`. -/
theorem PyStatus.success_changed_only_by_assignment {σ : Type} [NativeStatus σ]
    (st : Store) (x : Nat) (v : PyStatus) (hx : st.live x = some v) :
    (∀ (s : Stmt σ) (st' : Store), s.target ≠ some x → exec st s = some st' →
      st'.successOf x = some v.success) ∧
    (∀ (src : Nat) (w : PyStatus), st.live src = some w →
      ∃ st' : Store, exec st (Stmt.assignFrom x src : Stmt σ) = some st' ∧
        st'.successOf x = some w.success) := by
  have hlt : x < st.length := Store.live_lt_length hx
  refine ⟨?_, ?_⟩
  · intro s st' ht hrun
    rw [Store.successOf, exec_live_other hrun hlt ht, hx]; rfl
  · intro src w hsrc
    refine ⟨st.set x (some (v.assign w)), by simp [exec, hx, hsrc], ?_⟩
    rw [Store.successOf, Store.live_set_same st _ hlt]; rfl

/-- Witness for the amended C6 in the store of `PyStatus a(true); PyStatus b(false);` with
`x` the object `a`; the statement `PyStatus c(a);` is one of those that leave `a` alone. -/
theorem PyStatus.success_changed_only_by_assignment_witness :
    Store.live [some (PyStatus.ctorBool true), some (PyStatus.ctorBool false)] 0
      = some (PyStatus.ctorBool true) ∧
    ((∀ (s : Stmt DetailedStatus) (st' : Store), s.target ≠ some 0 →
        exec [some (PyStatus.ctorBool true), some (PyStatus.ctorBool false)] s = some st' →
        st'.successOf 0 = some true) ∧
      (∀ (src : Nat) (w : PyStatus),
        Store.live [some (PyStatus.ctorBool true), some (PyStatus.ctorBool false)] src
          = some w →
        ∃ st' : Store,
          exec [some (PyStatus.ctorBool true), some (PyStatus.ctorBool false)]
            (Stmt.assignFrom 0 src : Stmt DetailedStatus) = some st' ∧
          st'.successOf 0 = some w.success)) ∧
    (exec [some (PyStatus.ctorBool true), some (PyStatus.ctorBool false)]
      (Stmt.newCopy 0 : Stmt DetailedStatus)
      = some [some (PyStatus.ctorBool true), some (PyStatus.ctorBool false),
          some (PyStatus.ctorBool true)]) :=
  ⟨rfl, @PyStatus.success_changed_only_by_assignment DetailedStatus _
    [some (PyStatus.ctorBool true), some (PyStatus.ctorBool false)] 0
    (PyStatus.ctorBool true) rfl, by decide⟩

/-! ## `PyStatus`: the adapter keeps one bit -/

/-- C9: two native status values with the same `success()`, whatever else they carry, give
the same `PyStatus`: the two objects are equal as values (there is no other member), their
`success()` results are equal, and so is the result of anything computed from them. -/
theorem PyStatus.ctorNative_keeps_only_success {σ : Type} [NativeStatus σ] (s1 s2 : σ)
    (h : NativeStatus.success s1 = NativeStatus.success s2) :
    PyStatus.ctorNative s1 = PyStatus.ctorNative s2 ∧
    (PyStatus.ctorNative s1).success = (PyStatus.ctorNative s2).success ∧
    ∀ (β : Type) (observe : PyStatus → β),
      observe (PyStatus.ctorNative s1) = observe (PyStatus.ctorNative s2) := by
  have heq : PyStatus.ctorNative s1 = PyStatus.ctorNative s2 := by
    simp [PyStatus.ctorNative, h]
  exact ⟨heq, by rw [heq], fun _ observe => by rw [heq]⟩

/-- Witness for C9: a failed native status with a diagnostic text and one without. -/
theorem PyStatus.ctorNative_keeps_only_success_witness :
    NativeStatus.success (DetailedStatus.mk false "constraint failure in step 12")
      = NativeStatus.success (DetailedStatus.mk false "") ∧
    (PyStatus.ctorNative (DetailedStatus.mk false "constraint failure in step 12")
        = PyStatus.ctorNative (DetailedStatus.mk false "") ∧
      (PyStatus.ctorNative (DetailedStatus.mk false "constraint failure in step 12")).success
        = (PyStatus.ctorNative (DetailedStatus.mk false "")).success ∧
      ∀ (β : Type) (observe : PyStatus → β),
        observe (PyStatus.ctorNative (DetailedStatus.mk false "constraint failure in step 12"))
          = observe (PyStatus.ctorNative (DetailedStatus.mk false ""))) :=
  ⟨rfl, PyStatus.ctorNative_keeps_only_success
    (DetailedStatus.mk false "constraint failure in step 12") (DetailedStatus.mk false "") rfl⟩

/-- C10: construction is total and the result is binary.  Each of the four constructors
yields an object for every argument, that object is `PyStatus(true)` or `PyStatus(false)`,
and `PyStatus()` is `PyStatus(false)`; `success()` has a value on every object.  In the
store no construction is undefined (a copy needs only that its source is alive) and
`success()` on a live object is defined, returns the flag and changes nothing. -/
theorem PyStatus.construction_total_binary {σ : Type} [NativeStatus σ] :
    (∀ c : CtorCall σ, ∃ p : PyStatus, c.run = p ∧
      (p = PyStatus.ctorBool true ∨ p = PyStatus.ctorBool false) ∧
      ∃ b : Bool, p.success = b) ∧
    PyStatus.ctorDefault = PyStatus.ctorBool false ∧
    (∀ st : Store,
      (∃ st', exec st (Stmt.newDefault : Stmt σ) = some st') ∧
      (∀ b : Bool, ∃ st', exec st (Stmt.newBool b : Stmt σ) = some st') ∧
      (∀ s : σ, ∃ st', exec st (Stmt.newNative s) = some st') ∧
      (∀ (x : Nat) (v : PyStatus), st.live x = some v →
        (∃ st', exec st (Stmt.newCopy x : Stmt σ) = some st') ∧
        st.successOf x = some v.success_ ∧
        exec st (Stmt.callSuccess x : Stmt σ) = some st)) := by
  refine ⟨?_, rfl, ?_⟩
  · intro c
    refine ⟨c.run, rfl, ?_, c.run.success, rfl⟩
    cases c with
    | dflt => exact Or.inr rfl
    | copy status =>
      obtain ⟨flag⟩ := status
      cases flag
      · exact Or.inr rfl
      · exact Or.inl rfl
    | ofBool status =>
      cases status
      · exact Or.inr rfl
      · exact Or.inl rfl
    | ofNative status =>
      cases hs : NativeStatus.success status
      · exact Or.inr (by simp [CtorCall.run, PyStatus.ctorNative, PyStatus.ctorBool, hs])
      · exact Or.inl (by simp [CtorCall.run, PyStatus.ctorNative, PyStatus.ctorBool, hs])
  · intro st
    refine ⟨⟨_, rfl⟩, fun b => ⟨_, rfl⟩, fun s => ⟨_, rfl⟩, ?_⟩
    intro x v hx
    refine ⟨⟨st ++ [some (PyStatus.ctorCopy v)], by simp [exec, hx]⟩, ?_, by simp [exec, hx]⟩
    rw [Store.successOf, hx]; rfl

/-! ## `PyGmxModule::info` -/

/-- C5: `info()` called on an object of the base class `PyGmxModule`, whether it was default
constructed or came from base objects by copy or move construction or assignment, returns
the empty string. -/
theorem PyGmxModule.info_base_empty (o : BaseObject) :
    (PyGmxModule.info o.value).1 = "" :=
  rfl

/-- C8: copy construction of an object of a subclass whose added state is held by value
gives a copy whose `info()` returns what the original's returns, and the original, being
unchanged by the construction, returns what it returned before.  In the embedding what an
override returns is a function of the object it is called on, which is the claim's premise
on `info()`. -/
theorem Derived.copy_preserves_info (C : ModuleClass) (m : Derived C.Added) :
    (C.info m.copyConstruct.2).1 = (C.info m).1 ∧
    (C.info m.copyConstruct.1).1 = (C.info m).1 ∧
    m.copyConstruct.1 = m ∧
    m.copyConstruct.2.added = m.added :=
  ⟨rfl, rfl, rfl, rfl⟩

end gmxpy
